import Mathlib

/-!
Verification development for the agent-chrome-test bridge.

The definitions below are shallow embeddings of the TypeScript sources:
the WebSocket bridge (ws-bridge.ts), the extension service worker
(service-worker.ts), the test session accumulator (session.ts), the
baseline store (visual/store.ts) and the screenshot comparator
(visual/compare.ts).  JavaScript numbers that only ever hold integers are
modelled as Nat/Int; the floating-point percentage arithmetic of the
comparator is modelled over the rationals.
-/

/-- JS `String.prototype.includes`: substring containment, on char lists. -/
def jsIncludes (s sub : List Char) : Bool :=
  decide (sub <:+: s)

/-- `sanitizeForLog` (ws-bridge.ts): a string value longer than 200
characters is truncated and suffixed with a marker; everything else passes
through unchanged.  Params are modelled as ordered key/value string pairs. -/
def sanitizeValue (v : String) : String :=
  if v.length > 200 then String.mk (v.data.take 200) ++ "...[truncated]" else v

/-- `sanitizeForLog` applied to every entry of a params object. -/
def sanitizeForLog (params : List (String × String)) : List (String × String) :=
  params.map (fun p => (p.1, sanitizeValue p.2))

/-- `timingSafeEqual` (ws-bridge.ts): returns false early when the lengths
differ, otherwise ORs together the XORs of the character codes and compares
the accumulator with zero. -/
def timingSafeEqual (a b : String) : Bool :=
  if a.length ≠ b.length then false
  else decide ((List.foldl (fun r p => r ||| (p.1.toNat ^^^ p.2.toNat)) 0 (a.data.zip b.data)) = 0)

theorem nat_or_eq_zero {m n : Nat} : m ||| n = 0 ↔ m = 0 ∧ n = 0 := by
  constructor
  · intro h
    have hb : ∀ i, m.testBit i = false ∧ n.testBit i = false := by
      intro i
      have hi := congrArg (fun x => Nat.testBit x i) h
      simp only [Nat.testBit_or, Nat.zero_testBit] at hi
      exact Bool.or_eq_false_iff.mp hi
    exact ⟨Nat.zero_of_testBit_eq_false (fun i => (hb i).1),
           Nat.zero_of_testBit_eq_false (fun i => (hb i).2)⟩
  · rintro ⟨rfl, rfl⟩
    rfl

theorem char_toNat_inj {c d : Char} (h : c.toNat = d.toNat) : c = d := by
  have hv : c.val = d.val := UInt32.toNat.inj h
  cases c; cases d
  cases hv
  rfl

theorem foldl_or_xor_eq_zero (l : List (Char × Char)) (r : Nat) :
    (List.foldl (fun r p => r ||| (p.1.toNat ^^^ p.2.toNat)) r l = 0) ↔
      (r = 0 ∧ ∀ p ∈ l, p.1.toNat = p.2.toNat) := by
  induction l generalizing r with
  | nil => simp
  | cons hd tl ih =>
      rw [List.foldl_cons, ih]
      rw [nat_or_eq_zero]
      simp only [List.mem_cons]
      constructor
      · rintro ⟨⟨h1, h2⟩, h3⟩
        refine ⟨h1, ?_⟩
        rintro p (rfl | hp)
        · exact Nat.xor_eq_zero.mp h2
        · exact h3 p hp
      · rintro ⟨h1, h2⟩
        exact ⟨⟨h1, Nat.xor_eq_zero.mpr (h2 hd (Or.inl rfl))⟩, fun p hp => h2 p (Or.inr hp)⟩

theorem zip_pointwise_eq {l1 l2 : List Char} (hlen : l1.length = l2.length) :
    (∀ p ∈ l1.zip l2, p.1 = p.2) ↔ l1 = l2 := by
  induction l1 generalizing l2 with
  | nil =>
      cases l2 with
      | nil => simp
      | cons b t2 => simp at hlen
  | cons a t ih =>
      cases l2 with
      | nil => simp at hlen
      | cons b t2 =>
          simp only [List.length_cons, Nat.add_right_cancel_iff] at hlen
          simp only [List.zip_cons_cons, List.mem_cons, List.cons.injEq]
          constructor
          · intro h
            refine ⟨h (a, b) (Or.inl rfl), (ih hlen).mp ?_⟩
            exact fun p hp => h p (Or.inr hp)
          · rintro ⟨rfl, rfl⟩
            rintro p (rfl | hp)
            · rfl
            · exact ((ih hlen).mpr rfl) p hp

theorem zip_self_fst_eq_snd {α : Type} : ∀ (l : List α), ∀ p ∈ l.zip l, p.1 = p.2 := by
  intro l
  induction l with
  | nil =>
      intro p hp
      cases hp
  | cons a t ih =>
      intro p hp
      rw [List.zip_cons_cons] at hp
      rcases List.mem_cons.mp hp with rfl | hp
      · rfl
      · exact ih p hp

/-- The constant-time comparison decides string equality. -/
theorem timingSafeEqual_eq_true_iff (a b : String) :
    timingSafeEqual a b = true ↔ a = b := by
  unfold timingSafeEqual
  by_cases hlen : a.length = b.length
  · simp only [hlen, ne_eq, not_true_eq_false, if_false, decide_eq_true_eq]
    rw [foldl_or_xor_eq_zero]
    have hdl : a.data.length = b.data.length := hlen
    constructor
    · rintro ⟨-, h2⟩
      have hdata : a.data = b.data := by
        rw [← zip_pointwise_eq hdl]
        intro p hp
        exact char_toNat_inj (h2 p hp)
      cases a
      cases b
      exact congrArg String.mk hdata
    · rintro rfl
      refine ⟨rfl, ?_⟩
      intro p hp
      exact congrArg Char.toNat (zip_self_fst_eq_snd a.data p hp)
  · rw [if_pos hlen]
    exact ⟨fun h => absurd h (by simp), fun h => absurd (congrArg String.length h) hlen⟩

/-! ## WebSocketBridge (ws-bridge.ts) -/

/-- Response data payloads are abstracted as opaque JSON strings. -/
abbrev JsonData := String

/-- An incoming frame after `JSON.parse`, shaped the way `handleMessage`
inspects it.  `malformed` is a frame whose JSON parse threw.  `authMsg`
carries `msg.token` (`none` when the field is absent or not a string) and
`msg.extensionId`.  `responseMsg` carries `msg.id` as a plain string: the
code guards on JS truthiness, so the empty string behaves like a missing
id.  `commandMsg` is a frame with `type:"command"`.  `otherMsg` is any
other well-formed JSON object. -/
inductive InMsg
  | malformed
  | authMsg (token : Option String) (extensionId : Option String)
  | responseMsg (id : String) (success : Bool) (data : Option JsonData) (error : Option String)
  | commandMsg (id : String) (command : String)
  | otherMsg

/-- Frames the bridge writes to the peer socket. -/
inductive OutFrame
  | authResult (success : Bool) (error : Option String) (allowedOrigins : Option (List String))
  | commandFrame (id : String) (command : String) (params : List (String × String))
  | pongResponse (id : String)
  deriving DecidableEq

/-- One line of the audit log (timestamp omitted: it carries no logic). -/
structure AuditRecord where
  action : String
  params : List (String × String)
  deriving DecidableEq

/-- `WebSocketBridge` fields that the handlers read or write.  `pending`
holds the keys of the pending `Map` (the resolver/rejecter closures are
modelled by the `Outcome` events the handlers emit); JS `Map` keys are
unique, so deletion is modelled as filtering the key out. -/
structure BridgeState where
  clientPresent : Bool
  clientOpen : Bool
  isAuthenticated : Bool
  pending : List String
  authToken : String
  allowedOrigins : List String
  deriving DecidableEq

/-- `Map.delete` on the pending table. -/
def mapDelete (pending : List String) (id : String) : List String :=
  pending.filter (fun k => k ≠ id)

/-- Terminal event delivered to a dispatched command's promise. -/
inductive Outcome
  | resolved (data : Option JsonData)
  | rejected (message : String)
  deriving DecidableEq

/-- `connected` getter: an open client socket and a completed handshake. -/
def connected (s : BridgeState) : Bool :=
  s.clientOpen && s.isAuthenticated

/-- Result of one `handleMessage` invocation: the new bridge state, the
frames written to the socket, the audit records appended, and the
outcomes delivered to pending commands. -/
structure HandleResult where
  state : BridgeState
  sent : List OutFrame
  audits : List AuditRecord
  outcomes : List (String × Outcome)
  deriving DecidableEq

/-- `params: { extensionId: msg.extensionId }` — `JSON.stringify` drops the
key when the peer supplied no extensionId. -/
def authFailedParams : Option String → List (String × String)
  | some e => [("extensionId", e)]
  | none => []

/-- `WebSocketBridge.handleMessage`: the message handler for the peer
socket.  Mirrors the source's branch order: malformed JSON is dropped,
then the `auth` branch, then the `response` branch (guarded by a truthy
id), then the `ping` keepalive branch; anything else falls through and is
ignored. -/
def handleMessage (s : BridgeState) (msg : InMsg) : HandleResult :=
  match msg with
  | .malformed => ⟨s, [], [], []⟩
  | .authMsg token extensionId =>
      let valid := match token with
        | some t => decide (t.length > 0) && timingSafeEqual t s.authToken
        | none => false
      if valid then
        ⟨{ s with isAuthenticated := true },
         [.authResult true none (some s.allowedOrigins)], [], []⟩
      else
        ⟨s, [.authResult false (some "Invalid auth token") none],
         [⟨"auth_failed", sanitizeForLog (authFailedParams extensionId)⟩], []⟩
  | .responseMsg id success data error =>
      if id ≠ "" then
        if s.pending.contains id then
          ⟨{ s with pending := mapDelete s.pending id }, [], [],
           [(id, if success then .resolved data else .rejected (error.getD "Command failed"))]⟩
        else ⟨s, [], [], []⟩
      else ⟨s, [], [], []⟩
  | .commandMsg id command =>
      if command = "ping" then ⟨s, [.pongResponse id], [], []⟩
      else ⟨s, [], [], []⟩
  | .otherMsg => ⟨s, [], [], []⟩

/-- Result of a `sendCommand` call: either the local not-connected throw,
or a dispatch that left a pending entry behind. -/
inductive SendResult
  | notConnected (message : String)
  | dispatched (id : String)
  deriving DecidableEq

structure SendOutput where
  state : BridgeState
  sent : List OutFrame
  audits : List AuditRecord
  result : SendResult
  deriving DecidableEq

/-- `WebSocketBridge.sendCommand`: throws when no authenticated peer is
attached; otherwise audits the command, registers the pending entry and
writes the command frame.  The fresh `crypto.randomUUID()` value is
passed in as `newId`. -/
def sendCommand (s : BridgeState) (command : String)
    (params : List (String × String)) (newId : String) : SendOutput :=
  if connected s = false then
    ⟨s, [], [],
     .notConnected "Extension not connected. Make sure the Chrome extension is running and authenticated."⟩
  else
    ⟨{ s with pending := s.pending ++ [newId] },
     [.commandFrame newId command params],
     [⟨command, sanitizeForLog params⟩],
     .dispatched newId⟩

/-- The timeout timer armed by `sendCommand`.  Its callback deletes the
pending entry and rejects with the timeout message; the timer is cleared
whenever the entry is removed by another terminal event
(response / close / stop), so the callback only ever runs while the entry
is still pending — firing after the entry is gone is modelled as a no-op. -/
def timeoutFire (s : BridgeState) (id : String) (command : String) (timeoutMs : Nat) :
    BridgeState × List (String × Outcome) :=
  if s.pending.contains id then
    ({ s with pending := mapDelete s.pending id },
     [(id, .rejected ("Command \"" ++ command ++ "\" timed out after " ++ toString timeoutMs ++ "ms"))])
  else (s, [])

/-- The `close` handler installed on the peer socket in
`WebSocketBridge.start`.  `isCurrent` is the `this.client === ws` guard.
Returns the new state, the outcomes of the rejected pending commands, and
whether the onDisconnect callbacks fired. -/
def handleClose (s : BridgeState) (isCurrent : Bool) :
    BridgeState × List (String × Outcome) × Bool :=
  if isCurrent then
    ({ s with clientPresent := false, clientOpen := false,
              isAuthenticated := false, pending := [] },
     s.pending.map (fun id => (id, .rejected "Extension disconnected")),
     true)
  else (s, [], false)

/-- `WebSocketBridge.stop`: rejects every pending command with the
shutting-down error and closes the peer and the listener. -/
def bridgeStop (s : BridgeState) : BridgeState × List (String × Outcome) :=
  ({ s with pending := [], clientOpen := false },
   s.pending.map (fun id => (id, .rejected "Server shutting down")))

/-- Action taken on a newly arrived socket by the `connection` handler. -/
inductive ConnAction
  | refused (code : Nat) (reason : String)
  | accepted
  deriving DecidableEq

/-- The `connection` handler in `WebSocketBridge.start`: while the current
client socket is open a new connection is closed with 4001; otherwise the
new socket becomes the client and the handshake state is reset. -/
def handleConnection (s : BridgeState) : BridgeState × ConnAction :=
  if s.clientOpen then
    (s, .refused 4001 "Another client is already connected")
  else
    ({ s with clientPresent := true, clientOpen := true, isAuthenticated := false },
     .accepted)

/-- Number of authenticated peers attached to the bridge: the bridge has a
single client slot, authenticated when the flag is set. -/
def authenticatedPeers (s : BridgeState) : Nat :=
  if s.clientPresent && s.isAuthenticated then 1 else 0

/-! ## Extension service worker (service-worker.ts) -/

/-- The two URL fields `isUrlAllowed` consults. -/
structure ParsedUrl where
  protocol : List Char
  hostname : List Char
  deriving DecidableEq

/-- First index at which `sep` occurs in `s`, if any. -/
def findSub (s sep : List Char) : Option Nat :=
  (List.range (s.length + 1)).find? (fun i => sep.isPrefixOf (s.drop i))

/-- Modelled from the spec: the platform `new URL(...)` constructor (not
part of this repository), reduced to the two fields the allowlist check
reads.  §4.2: "Parse the URL; if parsing fails → false."  A `file:` URL
keeps its scheme; otherwise the scheme must be followed by `://` and a
non-empty host, which extends to the next delimiter. -/
def parseUrl (u : List Char) : Option ParsedUrl :=
  if ("file:".data).isPrefixOf u then some ⟨"file:".data, []⟩
  else
    match findSub u ("://".data) with
    | none => none
    | some i =>
        let scheme := u.take i
        let rest := u.drop (i + 3)
        let host := rest.takeWhile (fun c => c ≠ '/' && c ≠ ':' && c ≠ '?' && c ≠ '#')
        if scheme.isEmpty || host.isEmpty then none else
        some ⟨scheme ++ (":".data), host⟩

/-- The `.some` callback of `isUrlAllowed`, evaluated left to right.  An
origin entry that fails to parse throws inside the callback; the
exception escapes `.some` and is caught by the surrounding `try`, so the
whole check yields `false` — which is exactly what returning `false`
without examining further entries does. -/
def matchOrigins (hostname : List Char) : List String → Bool
  | [] => false
  | o :: rest =>
      let normalized := if jsIncludes o.data ("://".data) then o.data else ("https://" ++ o).data
      match parseUrl normalized with
      | none => false
      | some po =>
          if hostname = po.hostname || (('.' :: po.hostname).isSuffixOf hostname) then true
          else matchOrigins hostname rest

/-- `isUrlAllowed` (service-worker.ts): parse failure → false; `file:`
URLs pass unconditionally; otherwise the URL's host must equal an allowed
origin's host or be a subdomain of it. -/
def isUrlAllowed (allowedOrigins : List String) (url : String) : Bool :=
  match parseUrl url.data with
  | none => false
  | some parsed =>
      if parsed.protocol = "file:".data then true
      else matchOrigins parsed.hostname allowedOrigins

/-- The `navigate` case of `executeCommand` (service-worker.ts): throws
before touching the tab when the URL is not allowed, otherwise navigates
and reports the URL back. -/
def executeNavigate (allowedOrigins : List String) (url : String) :
    Except String (List (String × String)) :=
  if isUrlAllowed allowedOrigins url = false then
    .error ("URL not in allowlist: " ++ url ++ ". Add the domain to your server config.")
  else
    .ok [("url", url)]

/-- Reconnection constants (service-worker.ts). -/
def RECONNECT_BASE_MS : Nat := 1000
def RECONNECT_MAX_MS : Nat := 30000
def MAX_RECONNECT_ATTEMPTS : Nat := 50

/-- Extension service-worker state touched by the connection lifecycle. -/
structure ExtState where
  reconnectAttempts : Nat
  isAuthenticated : Bool
  allowedOrigins : List String
  authToken : Option String
  deriving DecidableEq

/-- `scheduleReconnect`: no timer is armed once the attempt counter has
reached the maximum; otherwise the delay doubles from 1 s, capped at
30 s, and the counter is incremented. -/
def scheduleReconnect (s : ExtState) : ExtState × Option Nat :=
  if s.reconnectAttempts ≥ MAX_RECONNECT_ATTEMPTS then (s, none)
  else
    ({ s with reconnectAttempts := s.reconnectAttempts + 1 },
     some (min (RECONNECT_BASE_MS * 2 ^ s.reconnectAttempts) RECONNECT_MAX_MS))

/-- The `ws.onopen` handler: zeroes the attempt counter and sends the
auth frame when a token is configured. -/
def extOnOpen (s : ExtState) (extensionId : String) :
    ExtState × List InMsg :=
  ({ s with reconnectAttempts := 0 },
   match s.authToken with
   | some t => [.authMsg (some t) (some extensionId)]
   | none => [])

/-- The `auth_result` branch of the service worker's `handleMessage`:
records the outcome and unions in the server-sent origins; it does not
touch the reconnect counter. -/
def extHandleAuthResult (s : ExtState) (success : Bool)
    (origins : Option (List String)) : ExtState :=
  if success then
    { s with isAuthenticated := true,
             allowedOrigins := s.allowedOrigins ++ origins.getD [] }
  else
    { s with isAuthenticated := false }

/-- The `set_config` popup message handler: stores the new token and
resets the attempt counter before reconnecting. -/
def extSetConfig (s : ExtState) (token : String) : ExtState :=
  { s with authToken := some token, reconnectAttempts := 0 }

/-! ## Image comparator (visual/compare.ts) -/

/-- One RGBA pixel of a decoded PNG. -/
structure Pixel where
  r : Nat
  g : Nat
  b : Nat
  a : Nat
  deriving DecidableEq

/-- A decoded PNG as produced by `PNG.sync.read`: dimensions plus the
flattened pixel data. -/
structure PngImage where
  width : Nat
  height : Nat
  data : List Pixel
  deriving DecidableEq

/-- Modelled from the spec: the external `pixelmatch` library's per-pixel
YIQ color distance (the library is an npm dependency, not part of this
repository; §4.5 specifies "a per-pixel comparison with the
caller-supplied tolerance").  Identical RGBA pixels short-circuit to a
distance of zero; otherwise semi-transparent pixels are blended onto
white and the squared YIQ distance is returned, negated when the first
pixel is the brighter one. -/
def colorDelta (p q : Pixel) : ℚ :=
  if p.a = q.a ∧ p.r = q.r ∧ p.g = q.g ∧ p.b = q.b then 0
  else
    let blend : ℚ → ℚ → ℚ := fun c a => 255 + (c - 255) * a
    let rgb2y : ℚ → ℚ → ℚ → ℚ := fun r g b =>
      r * 0.29889531 + g * 0.58662247 + b * 0.11448223
    let rgb2i : ℚ → ℚ → ℚ → ℚ := fun r g b =>
      r * 0.59597799 - g * 0.27417610 - b * 0.32180189
    let rgb2q : ℚ → ℚ → ℚ → ℚ := fun r g b =>
      r * 0.21147017 - g * 0.52261711 + b * 0.31114694
    let ch : Pixel → ℚ × ℚ × ℚ := fun px =>
      if px.a < 255 then
        let alpha : ℚ := (px.a : ℚ) / 255
        (blend (px.r : ℚ) alpha, blend (px.g : ℚ) alpha, blend (px.b : ℚ) alpha)
      else ((px.r : ℚ), (px.g : ℚ), (px.b : ℚ))
    let c1 := ch p
    let c2 := ch q
    let y1 := rgb2y c1.1 c1.2.1 c1.2.2
    let y2 := rgb2y c2.1 c2.2.1 c2.2.2
    let y := y1 - y2
    let i := rgb2i c1.1 c1.2.1 c1.2.2 - rgb2i c2.1 c2.2.1 c2.2.2
    let q' := rgb2q c1.1 c1.2.1 c1.2.2 - rgb2q c2.1 c2.2.1 c2.2.2
    let delta := 0.5053 * y * y + 0.299 * i * i + 0.1957 * q' * q'
    if y1 > y2 then -delta else delta

/-- Modelled from the spec: the external `pixelmatch` main loop — counts
the pixel positions whose color distance exceeds `35215 · threshold²`
(the library's antialiasing reclassification is not modelled; no claim
depends on the exact count for unequal images). -/
def pixelmatch (d1 d2 : List Pixel) (threshold : ℚ) : Nat :=
  let maxDelta := 35215 * threshold * threshold
  (d1.zip d2).countP (fun p => decide (|colorDelta p.1 p.2| > maxDelta))

/-- The record returned by `compareScreenshots`; `hasDiffImage` records
whether the optional `diffImageBase64` field is present. -/
structure CompareResult where
  isMatch : Bool
  diffPixels : Int
  totalPixels : Nat
  diffPercentage : ℚ
  hasDiffImage : Bool
  deriving DecidableEq

/-- `compareScreenshots(actual, expected, threshold)` (visual/compare.ts,
default threshold 0.1): `img1` is the decoded expected image and `img2`
the decoded actual one.  Differing dimensions short-circuit to the
sentinel result with no diff image; otherwise the mismatches are counted
and a match means zero diff pixels. -/
def compareScreenshots (actual expected : PngImage) (threshold : ℚ) : CompareResult :=
  if expected.width ≠ actual.width ∨ expected.height ≠ actual.height then
    { isMatch := false, diffPixels := -1,
      totalPixels := expected.width * expected.height,
      diffPercentage := 100, hasDiffImage := false }
  else
    let diffPixels := pixelmatch expected.data actual.data threshold
    let totalPixels := expected.width * expected.height
    { isMatch := diffPixels == 0, diffPixels := (diffPixels : Int),
      totalPixels := totalPixels,
      diffPercentage := ((diffPixels : ℚ) / (totalPixels : ℚ)) * 100,
      hasDiffImage := true }

/-- What one `test_visual_compare` tool call did after the screenshot came
back (mcp-server.ts): `diffWritten` records whether
`baselineStore.saveDiff` ran, `assertionRecorded` the `passed` value
handed to `session.addAssertion`. -/
structure VisualCompareOutcome where
  firstRun : Bool
  baselineSaved : Bool
  result : Option CompareResult
  diffWritten : Bool
  assertionRecorded : Option Bool
  deriving DecidableEq

/-- The `test_visual_compare` handler body from the point where the fresh
screenshot has been decoded and the baseline looked up: a missing
baseline is saved and reported as a first run; otherwise the images are
compared and the diff image is persisted only when the comparison failed
and produced one. -/
def visualCompareTool (actual : PngImage) (baseline : Option PngImage)
    (threshold : ℚ) : VisualCompareOutcome :=
  match baseline with
  | none =>
      { firstRun := true, baselineSaved := true, result := none,
        diffWritten := false, assertionRecorded := none }
  | some b =>
      let r := compareScreenshots actual b threshold
      { firstRun := false, baselineSaved := false, result := some r,
        diffWritten := !r.isMatch && r.hasDiffImage,
        assertionRecorded := some r.isMatch }

/-! ## Test session (session.ts) -/

/-- One recorded assertion; timestamps are abstract instants. -/
structure Assertion where
  passed : Bool
  message : String
  timestamp : Nat
  deriving DecidableEq

/-- `TestSession` private state. -/
structure SessionState where
  name : Option String
  assertions : List Assertion
  startedAt : Option Nat
  deriving DecidableEq

/-- `SessionSummary` as returned by `TestSession.end`. -/
structure SessionSummary where
  name : String
  passed : Bool
  total : Nat
  passed_count : Nat
  failed_count : Nat
  assertions : List Assertion
  startedAt : Nat
  endedAt : Nat
  durationMs : Int
  deriving DecidableEq

/-- `TestSession.start`: sets the name and clears the buffer. -/
def sessionStart (_s : SessionState) (name : String) (now : Nat) : SessionState :=
  { name := some name, assertions := [], startedAt := some now }

/-- `TestSession.addAssertion`: appends with the current timestamp. -/
def sessionAddAssertion (s : SessionState) (passed : Bool) (message : String)
    (now : Nat) : SessionState :=
  { s with assertions := s.assertions ++ [⟨passed, message, now⟩] }

/-- `TestSession.end`: emits the summary and resets to idle. -/
def sessionEnd (s : SessionState) (now : Nat) : SessionSummary × SessionState :=
  let passedCount := (s.assertions.filter (fun a => a.passed)).length
  let failedCount := (s.assertions.filter (fun a => !a.passed)).length
  ({ name := s.name.getD "unnamed",
     passed := failedCount == 0,
     total := s.assertions.length,
     passed_count := passedCount,
     failed_count := failedCount,
     assertions := s.assertions,
     startedAt := s.startedAt.getD now,
     endedAt := now,
     durationMs := (now : Int) - ((s.startedAt.getD now : Nat) : Int) },
   { name := none, assertions := [], startedAt := none })

/-! ## Baseline store (visual/store.ts) -/

/-- A filesystem access performed by a store operation. -/
inductive FsOp
  | statFile (path : String)
  | readFile (path : String)
  | writeFile (path : String)
  deriving DecidableEq

/-- `BaselineStore.validateName`: rejects names containing `..`, `/` or
`\`. -/
def validateName (name : String) : Except String Unit :=
  if jsIncludes name.data ("..".data) || jsIncludes name.data ("/".data)
      || jsIncludes name.data ("\\".data) then
    .error ("Invalid baseline name: \"" ++ name ++ "\". Must not contain path separators.")
  else .ok ()

/-- A store operation's outcome plus the filesystem accesses it made. -/
structure StoreOutput (α : Type) where
  result : Except String α
  fsOps : List FsOp

/-- `BaselineStore.save`: validates, then writes `<base>/<name>.png`. -/
def storeSave (baseDir name : String) (_pngBuffer : List Nat) : StoreOutput String :=
  match validateName name with
  | .error e => ⟨.error e, []⟩
  | .ok _ =>
      let filePath := baseDir ++ "/" ++ name ++ ".png"
      ⟨.ok filePath, [.writeFile filePath]⟩

/-- `BaselineStore.saveDiff`: validates, then writes
`<base>/diffs/<name>.diff.png`. -/
def storeSaveDiff (baseDir name : String) (_pngBuffer : List Nat) : StoreOutput String :=
  match validateName name with
  | .error e => ⟨.error e, []⟩
  | .ok _ =>
      let filePath := baseDir ++ "/diffs/" ++ name ++ ".diff.png"
      ⟨.ok filePath, [.writeFile filePath]⟩

/-- `BaselineStore.load`: validates, then checks for the file and reads
it; `fileContent` stands for the bytes on disk when the file exists. -/
def storeLoad (baseDir name : String) (fileContent : Option (List Nat)) :
    StoreOutput (Option (List Nat)) :=
  match validateName name with
  | .error e => ⟨.error e, []⟩
  | .ok _ =>
      let filePath := baseDir ++ "/" ++ name ++ ".png"
      match fileContent with
      | none => ⟨.ok none, [.statFile filePath]⟩
      | some c => ⟨.ok (some c), [.statFile filePath, .readFile filePath]⟩

/-- `BaselineStore.exists`: validates, then a file-presence check. -/
def storeExists (baseDir name : String) (filePresent : Bool) : StoreOutput Bool :=
  match validateName name with
  | .error e => ⟨.error e, []⟩
  | .ok _ =>
      let filePath := baseDir ++ "/" ++ name ++ ".png"
      ⟨.ok filePresent, [.statFile filePath]⟩

/-! ## Shared auxiliary lemmas -/

theorem mapDelete_not_contains (l : List String) (id : String) :
    (mapDelete l id).contains id = false := by
  simp [mapDelete]

theorem string_ne_empty_length_pos {s : String} (h : s ≠ "") : s.length > 0 := by
  cases s with
  | mk data =>
      cases data with
      | nil => exact absurd rfl h
      | cons c t => simp [String.length]

/-! ## Claims -/

/-- C1 (counterexample): the bridge's `sendCommand` performs no allowlist
check.  With an authenticated peer attached and allowlist `["localhost"]`,
`sendCommand("navigate", {url:"https://evil.example/"})` — a URL the
origin allowlist rejects — writes the command frame to the socket and
registers a pending entry instead of failing locally with a not-allowed
error. -/
theorem navigate_not_rejected_locally_cex :
    isUrlAllowed ["localhost"] "https://evil.example/" = false ∧
    (sendCommand ⟨true, true, true, [], "tok", ["localhost"]⟩ "navigate"
        [("url", "https://evil.example/")] "id-1").sent =
      [.commandFrame "id-1" "navigate" [("url", "https://evil.example/")]] ∧
    (sendCommand ⟨true, true, true, [], "tok", ["localhost"]⟩ "navigate"
        [("url", "https://evil.example/")] "id-1").result = .dispatched "id-1" := by
  refine ⟨by decide, rfl, rfl⟩

/-- C1 (amended): for every `sendCommand("navigate", {url})` whose url the
origin allowlist rejects, the bridge sends the command frame to the peer
anyway (no local allowlist check); the allowlist is enforced by the
extension peer, whose `executeCommand` throws the not-in-allowlist error
before navigating, and the bridge propagates that error back to the
caller when the peer's failure response arrives. -/
theorem navigate_allowlist_enforced_by_peer
    (s : BridgeState) (origins : List String) (url newId : String)
    (hconn : connected s = true)
    (hurl : isUrlAllowed origins url = false)
    (hid : newId ≠ "") :
    (sendCommand s "navigate" [("url", url)] newId).sent =
      [.commandFrame newId "navigate" [("url", url)]] ∧
    (sendCommand s "navigate" [("url", url)] newId).result = .dispatched newId ∧
    (sendCommand s "navigate" [("url", url)] newId).state.pending = s.pending ++ [newId] ∧
    executeNavigate origins url =
      .error ("URL not in allowlist: " ++ url ++ ". Add the domain to your server config.") ∧
    (handleMessage (sendCommand s "navigate" [("url", url)] newId).state
        (.responseMsg newId false none
          (some ("URL not in allowlist: " ++ url ++ ". Add the domain to your server config.")))).outcomes =
      [(newId, .rejected ("URL not in allowlist: " ++ url ++ ". Add the domain to your server config."))] := by
  have hsend : sendCommand s "navigate" [("url", url)] newId =
      ⟨{ s with pending := s.pending ++ [newId] },
       [.commandFrame newId "navigate" [("url", url)]],
       [⟨"navigate", sanitizeForLog [("url", url)]⟩],
       .dispatched newId⟩ := by
    unfold sendCommand
    rw [hconn]
    rfl
  refine ⟨by rw [hsend], by rw [hsend], by rw [hsend], ?_, ?_⟩
  · unfold executeNavigate
    rw [hurl]
    rfl
  · rw [hsend]
    unfold handleMessage
    simp [hid]

/-- C2: every pending entry is removed by exactly one terminal event — a
matching response resolves or rejects it and deletes it; the timeout
callback deletes it; a peer disconnect and `stop()` clear the whole
table — and a response frame whose id has no pending entry leaves the
bridge state unchanged and produces no reply and no outcome. -/
theorem pending_terminal_events
    (s : BridgeState) (id : String) (success : Bool) (data : Option JsonData)
    (err : Option String) (cmd : String) (ms : Nat) :
    (id ≠ "" → s.pending.contains id = true →
      (handleMessage s (.responseMsg id success data err)).state.pending.contains id = false ∧
      (handleMessage s (.responseMsg id success data err)).outcomes =
        [(id, if success then .resolved data else .rejected (err.getD "Command failed"))] ∧
      (handleMessage s (.responseMsg id success data err)).sent = []) ∧
    (s.pending.contains id = false →
      handleMessage s (.responseMsg id success data err) = ⟨s, [], [], []⟩) ∧
    (timeoutFire s id cmd ms).1.pending.contains id = false ∧
    (handleClose s true).1.pending = [] ∧
    (bridgeStop s).1.pending = [] := by
  refine ⟨?_, ?_, ?_, rfl, rfl⟩
  · intro hid hmem
    simp only [handleMessage]
    rw [if_pos hid, if_pos hmem]
    exact ⟨mapDelete_not_contains s.pending id, rfl, rfl⟩
  · intro hmem
    simp only [handleMessage]
    by_cases hid : id = ""
    · rw [if_neg (by simp [hid])]
    · rw [if_pos hid, if_neg (by simpa using hmem)]
  · unfold timeoutFire
    by_cases hmem : s.pending.contains id = true
    · rw [if_pos hmem]
      exact mapDelete_not_contains s.pending id
    · rw [if_neg hmem]
      exact Bool.eq_false_iff.mpr hmem

/-- C3: authentication succeeds iff the supplied token string equals the
bridge's generated token (the generated token is a 64-character hex
string, hence non-empty; the comparison is `timingSafeEqual`, which
returns early only on a length mismatch).  On mismatch the bridge replies
`auth_result{success:false, error:"Invalid auth token"}`, writes an
`auth_failed` audit record carrying the peer-supplied extensionId (passed
through `sanitizeForLog`, the identity on values of at most 200
characters), keeps the connection open with the state otherwise
unchanged, and — when the peer was not yet authenticated — a subsequent
`sendCommand` still fails with the not-connected error. -/
theorem auth_token_check (s : BridgeState) (token e : String)
    (htok : s.authToken ≠ "") :
    (((handleMessage s (.authMsg (some token) (some e))).state.isAuthenticated = true ∧
      (handleMessage s (.authMsg (some token) (some e))).sent =
        [.authResult true none (some s.allowedOrigins)]) ↔ token = s.authToken) ∧
    (token ≠ s.authToken →
      handleMessage s (.authMsg (some token) (some e)) =
        ⟨s, [.authResult false (some "Invalid auth token") none],
         [⟨"auth_failed", [("extensionId", sanitizeValue e)]⟩], []⟩ ∧
      (s.isAuthenticated = false →
        (sendCommand (handleMessage s (.authMsg (some token) (some e))).state
            "url" [] "n1").result =
          .notConnected "Extension not connected. Make sure the Chrome extension is running and authenticated.")) := by
  simp only [handleMessage]
  by_cases heq : token = s.authToken
  · have hval : (decide (token.length > 0) && timingSafeEqual token s.authToken) = true := by
      rw [Bool.and_eq_true, decide_eq_true_eq]
      exact ⟨heq ▸ string_ne_empty_length_pos htok,
             (timingSafeEqual_eq_true_iff token s.authToken).mpr heq⟩
    rw [if_pos hval]
    refine ⟨⟨fun _ => heq, fun _ => ⟨rfl, rfl⟩⟩, fun hne => absurd heq hne⟩
  · have hval : (decide (token.length > 0) && timingSafeEqual token s.authToken) = false := by
      cases hts : timingSafeEqual token s.authToken with
      | true => exact absurd ((timingSafeEqual_eq_true_iff token s.authToken).mp hts) heq
      | false => simp
    rw [if_neg (by simp [hval])]
    constructor
    · constructor
      · rintro ⟨-, hsent⟩
        exact absurd (List.head_eq_of_cons_eq hsent) (by simp)
      · intro h
        exact absurd h heq
    · intro _
      refine ⟨rfl, ?_⟩
      intro hauth
      simp only [sendCommand, connected, hauth, Bool.and_false]
      rfl

/-- C4 (counterexample): in the pre-authentication CONNECTED state the
bridge does not ignore a `ping` command frame — `handleMessage` has no
authentication guard on the keepalive branch, so an unauthenticated peer
that sends `command{command:"ping"}` receives a pong response. -/
theorem preauth_ping_answered_cex :
    (⟨true, true, false, [], "tok", []⟩ : BridgeState).isAuthenticated = false ∧
    (handleMessage ⟨true, true, false, [], "tok", []⟩ (.commandMsg "k1" "ping")).sent =
      [.pongResponse "k1"] := by
  exact ⟨rfl, rfl⟩

/-- C4 (amended): while a peer is in the pre-authentication CONNECTED
state, every frame other than an auth frame, a `ping` command frame, or a
response frame whose (truthy) id matches a pending entry is ignored: the
bridge sends nothing, audits nothing, delivers no outcome, and its state
is unchanged.  (A pre-auth `ping` is answered with a pong and a matching
response frame would be consumed — the handler never consults the
authentication flag.) -/
theorem preauth_other_frames_ignored (s : BridgeState) (msg : InMsg)
    (_hpre : s.isAuthenticated = false)
    (hshape : match msg with
      | .authMsg _ _ => False
      | .commandMsg _ c => c ≠ "ping"
      | .responseMsg id _ _ _ => id ≠ "" → s.pending.contains id = false
      | _ => True) :
    handleMessage s msg = ⟨s, [], [], []⟩ := by
  cases msg with
  | malformed => rfl
  | otherMsg => rfl
  | authMsg t e => exact absurd hshape not_false
  | commandMsg i c =>
      simp only [handleMessage]
      rw [if_neg hshape]
  | responseMsg i su d er =>
      simp only [handleMessage]
      by_cases hi : i = ""
      · rw [if_neg (by simp [hi])]
      · rw [if_pos hi, if_neg (by simpa using hshape hi)]

/-- C5 (counterexample): the refusal reason the bridge actually sends is
"Another client is already connected" (capital A), not the lowercase
"another client is already connected" stated in the claim. -/
theorem second_connection_reason_cex :
    (handleConnection ⟨true, true, true, [], "tok", []⟩).2 =
      .refused 4001 "Another client is already connected" ∧
    "Another client is already connected" ≠ "another client is already connected" := by
  exact ⟨rfl, by decide⟩

/-- C5 (amended): when a new connection arrives while the current peer
socket is open, the new connection is closed with code 4001 and reason
"Another client is already connected", the bridge state — in particular
the current peer and its authentication — is untouched, and at most one
peer is in the authenticated state at any instant (the bridge has a
single client slot). -/
theorem second_connection_refused (s : BridgeState) (h : s.clientOpen = true) :
    handleConnection s = (s, .refused 4001 "Another client is already connected") ∧
    (handleConnection s).1.isAuthenticated = s.isAuthenticated ∧
    (∀ s' : BridgeState, authenticatedPeers s' ≤ 1) := by
  refine ⟨?_, ?_, ?_⟩
  · unfold handleConnection
    rw [if_pos h]
  · unfold handleConnection
    rw [if_pos h]
  · intro s'
    unfold authenticatedPeers
    by_cases hc : (s'.clientPresent && s'.isAuthenticated) = true
    · rw [if_pos hc]
    · rw [if_neg hc]
      exact Nat.zero_le 1

theorem colorDelta_self (p : Pixel) : colorDelta p p = 0 := by
  simp [colorDelta]

theorem pixelmatch_self (d : List Pixel) (t : ℚ) : pixelmatch d d t = 0 := by
  unfold pixelmatch
  rw [List.countP_eq_zero]
  intro p hp
  have h1 : p.1 = p.2 := zip_self_fst_eq_snd d p hp
  have h0 : colorDelta p.1 p.2 = 0 := by
    rw [h1]
    exact colorDelta_self p.2
  have hnn : (0 : ℚ) ≤ 35215 * t * t := by
    have hsq : (0 : ℚ) ≤ t * t := mul_self_nonneg t
    calc (0 : ℚ) ≤ 35215 * (t * t) := by positivity
    _ = 35215 * t * t := by ring
  simp only [h0, abs_zero, decide_eq_true_eq, not_lt]
  exact hnn

/-- C6: `compareScreenshots(a, a, t)` reports a match for every decoded
PNG `a` and every threshold `t ∈ [0,1]` (identical pixels have color
distance zero, below every non-negative cutoff); and for equally-sized
inputs the result always satisfies `match ↔ diffPixels = 0` and
`diffPercentage = 100 · diffPixels / totalPixels`, for every threshold. -/
theorem compare_self_and_match_relations
    (a : PngImage) (t : ℚ) (_h0 : 0 ≤ t) (_h1 : t ≤ 1)
    (x e : PngImage) (t' : ℚ) (hw : e.width = x.width) (hh : e.height = x.height) :
    (compareScreenshots a a t).isMatch = true ∧
    ((compareScreenshots x e t').isMatch = true ↔ (compareScreenshots x e t').diffPixels = 0) ∧
    (compareScreenshots x e t').diffPercentage =
      100 * ((compareScreenshots x e t').diffPixels : ℚ) /
        ((compareScreenshots x e t').totalPixels : ℚ) := by
  have hred : compareScreenshots x e t' =
      { isMatch := pixelmatch e.data x.data t' == 0,
        diffPixels := (pixelmatch e.data x.data t' : Int),
        totalPixels := e.width * e.height,
        diffPercentage := ((pixelmatch e.data x.data t' : ℚ) / ((e.width * e.height : Nat) : ℚ)) * 100,
        hasDiffImage := true } := by
    unfold compareScreenshots
    rw [if_neg (by simp [hw, hh])]
  refine ⟨?_, ?_, ?_⟩
  · unfold compareScreenshots
    rw [if_neg (by simp)]
    simp [pixelmatch_self]
  · rw [hred]
    simp
  · rw [hred]
    push_cast
    ring

/-- C7 (counterexample): with an existing 1×1 baseline and a fresh 2×2
screenshot, `test_visual_compare` returns the sentinel mismatch result
but writes no diff file — `compareScreenshots` produces no diff image on
a dimension mismatch and the handler only calls `saveDiff` when one is
present, contradicting the claim that a diff file is written. -/
theorem visual_compare_no_diff_file_cex :
    (visualCompareTool ⟨2, 2, [⟨0,0,0,255⟩, ⟨0,0,0,255⟩, ⟨0,0,0,255⟩, ⟨0,0,0,255⟩]⟩
        (some ⟨1, 1, [⟨0,0,0,255⟩]⟩) (1/10)).diffWritten = false ∧
    (visualCompareTool ⟨2, 2, [⟨0,0,0,255⟩, ⟨0,0,0,255⟩, ⟨0,0,0,255⟩, ⟨0,0,0,255⟩]⟩
        (some ⟨1, 1, [⟨0,0,0,255⟩]⟩) (1/10)).result =
      some ⟨false, -1, 1, 100, false⟩ := by
  exact ⟨rfl, rfl⟩

/-- C7 (amended): when `test_visual_compare` runs against an existing
baseline and the fresh screenshot differs from it in dimensions, the
comparison result is `{match:false, diffPixels:-1, diffPercentage:100}`
with `totalPixels = expected.width · expected.height`, a failed assertion
is recorded — but no diff file is written (the comparator returns no diff
image in this case, so the handler's `saveDiff` call is skipped). -/
theorem visual_compare_dimension_mismatch (actual b : PngImage) (t : ℚ)
    (hdim : b.width ≠ actual.width ∨ b.height ≠ actual.height) :
    visualCompareTool actual (some b) t =
      ⟨false, false, some ⟨false, -1, b.width * b.height, 100, false⟩, false, some false⟩ := by
  simp only [visualCompareTool, compareScreenshots]
  rw [if_pos hdim]
  rfl

theorem foldl_addAssertion (adds : List (Bool × String × Nat)) (init : SessionState) :
    adds.foldl (fun st a => sessionAddAssertion st a.1 a.2.1 a.2.2) init =
      { init with assertions :=
          init.assertions ++ adds.map (fun a => ⟨a.1, a.2.1, a.2.2⟩) } := by
  induction adds generalizing init with
  | nil =>
      cases init
      simp
  | cons hd tl ih =>
      rw [List.foldl_cons, ih]
      cases init
      simp [sessionAddAssertion]

/-- C8: `TestSession.end` reports `passed = (failed_count == 0)`, a
`total` equal to the number of assertions recorded since the last start,
and `passed_count`/`failed_count` counting the assertions with
`passed` true/false; in particular
`start("s"); add(true,"a"); add(false,"b"); end()` yields
`{name:"s", total:2, passed_count:1, failed_count:1, passed:false}`, and
`start(x); end()` with no assertions yields
`{total:0, passed:true, name:x}`. -/
theorem session_summary_counts (s : SessionState) (name x : String)
    (t0 t1 t2 tEnd : Nat) (adds : List (Bool × String × Nat)) :
    ((sessionEnd (adds.foldl (fun st a => sessionAddAssertion st a.1 a.2.1 a.2.2)
        (sessionStart s name t0)) tEnd).1.name = name ∧
     (sessionEnd (adds.foldl (fun st a => sessionAddAssertion st a.1 a.2.1 a.2.2)
        (sessionStart s name t0)) tEnd).1.total = adds.length ∧
     (sessionEnd (adds.foldl (fun st a => sessionAddAssertion st a.1 a.2.1 a.2.2)
        (sessionStart s name t0)) tEnd).1.passed_count = (adds.filter (fun a => a.1)).length ∧
     (sessionEnd (adds.foldl (fun st a => sessionAddAssertion st a.1 a.2.1 a.2.2)
        (sessionStart s name t0)) tEnd).1.failed_count = (adds.filter (fun a => !a.1)).length ∧
     (sessionEnd (adds.foldl (fun st a => sessionAddAssertion st a.1 a.2.1 a.2.2)
        (sessionStart s name t0)) tEnd).1.passed =
       ((adds.filter (fun a => !a.1)).length == 0)) ∧
    ((sessionEnd (sessionAddAssertion (sessionAddAssertion (sessionStart s "s" t0)
        true "a" t1) false "b" t2) tEnd).1.name = "s" ∧
     (sessionEnd (sessionAddAssertion (sessionAddAssertion (sessionStart s "s" t0)
        true "a" t1) false "b" t2) tEnd).1.total = 2 ∧
     (sessionEnd (sessionAddAssertion (sessionAddAssertion (sessionStart s "s" t0)
        true "a" t1) false "b" t2) tEnd).1.passed_count = 1 ∧
     (sessionEnd (sessionAddAssertion (sessionAddAssertion (sessionStart s "s" t0)
        true "a" t1) false "b" t2) tEnd).1.failed_count = 1 ∧
     (sessionEnd (sessionAddAssertion (sessionAddAssertion (sessionStart s "s" t0)
        true "a" t1) false "b" t2) tEnd).1.passed = false) ∧
    ((sessionEnd (sessionStart s x t0) tEnd).1.total = 0 ∧
     (sessionEnd (sessionStart s x t0) tEnd).1.passed = true ∧
     (sessionEnd (sessionStart s x t0) tEnd).1.name = x) := by
  have hs' : adds.foldl (fun st a => sessionAddAssertion st a.1 a.2.1 a.2.2)
      (sessionStart s name t0) =
      { name := some name,
        assertions := adds.map (fun a => ⟨a.1, a.2.1, a.2.2⟩),
        startedAt := some t0 } := by
    rw [foldl_addAssertion]
    rfl
  refine ⟨⟨?_, ?_, ?_, ?_, ?_⟩, ⟨rfl, rfl, rfl, rfl, rfl⟩, rfl, rfl, rfl⟩
  · rw [hs']
    rfl
  · rw [hs']
    simp [sessionEnd]
  · rw [hs']
    simp only [sessionEnd]
    rw [← List.countP_eq_length_filter, ← List.countP_eq_length_filter, List.countP_map]
    rfl
  · rw [hs']
    simp only [sessionEnd]
    rw [← List.countP_eq_length_filter, ← List.countP_eq_length_filter, List.countP_map]
    rfl
  · rw [hs']
    simp only [sessionEnd]
    rw [← List.countP_eq_length_filter, ← List.countP_eq_length_filter, List.countP_map]
    rfl

/-- C9: every baseline name containing the substring `..` or the
character `/` or `\` makes all four store operations — `save`,
`saveDiff`, `load`, `exists` — fail with the invalid-name error before
any filesystem access: each returns the error and performs no file
operation at all. -/
theorem bad_baseline_names_rejected (baseDir name : String) (buf : List Nat)
    (content : Option (List Nat)) (present : Bool)
    (hbad : (jsIncludes name.data ("..".data) || jsIncludes name.data ("/".data)
             || jsIncludes name.data ("\\".data)) = true) :
    (storeSave baseDir name buf).result =
      .error ("Invalid baseline name: \"" ++ name ++ "\". Must not contain path separators.") ∧
    (storeSave baseDir name buf).fsOps = [] ∧
    (storeSaveDiff baseDir name buf).result =
      .error ("Invalid baseline name: \"" ++ name ++ "\". Must not contain path separators.") ∧
    (storeSaveDiff baseDir name buf).fsOps = [] ∧
    (storeLoad baseDir name content).result =
      .error ("Invalid baseline name: \"" ++ name ++ "\". Must not contain path separators.") ∧
    (storeLoad baseDir name content).fsOps = [] ∧
    (storeExists baseDir name present).result =
      .error ("Invalid baseline name: \"" ++ name ++ "\". Must not contain path separators.") ∧
    (storeExists baseDir name present).fsOps = [] := by
  have hv : validateName name =
      .error ("Invalid baseline name: \"" ++ name ++ "\". Must not contain path separators.") := by
    unfold validateName
    rw [if_pos hbad]
  refine ⟨?_, ?_, ?_, ?_, ?_, ?_, ?_, ?_⟩ <;>
    simp [storeSave, storeSaveDiff, storeLoad, storeExists, hv]

/-- C10 (counterexample): the extension's reconnect-attempt counter is
not reset by a successful `auth_result` — with the counter at 5,
processing `auth_result{success:true}` leaves it at 5; it is the socket's
`onopen` handler that zeroes it. -/
theorem reconnect_reset_cex :
    (extHandleAuthResult ⟨5, false, [], some "tok"⟩ true (some [])).reconnectAttempts = 5 ∧
    (5 : Nat) ≠ 0 ∧
    (extOnOpen ⟨5, false, [], some "tok"⟩ "ext1").1.reconnectAttempts = 0 := by
  exact ⟨rfl, by decide, rfl⟩

/-- C10 (amended): the reconnection delay for the n-th consecutive failed
attempt (n starting at 0) is `min(1000·2^n, 30000)` ms and each schedule
increments the counter; once the counter reaches 50 no reconnect is
scheduled; the counter is reset to zero when the socket connection opens
(`onopen`) — before authentication — and also by a `set_config` popup
message, while the `auth_result` handler leaves it unchanged. -/
theorem reconnect_backoff (s : ExtState) (n : Nat)
    (hn : s.reconnectAttempts = n) (hlt : n < MAX_RECONNECT_ATTEMPTS)
    (b : Bool) (o : Option (List String)) (eid tok : String) :
    (scheduleReconnect s).2 = some (min (1000 * 2 ^ n) 30000) ∧
    (scheduleReconnect s).1.reconnectAttempts = n + 1 ∧
    (∀ s' : ExtState, s'.reconnectAttempts ≥ MAX_RECONNECT_ATTEMPTS →
      scheduleReconnect s' = (s', none)) ∧
    (extOnOpen s eid).1.reconnectAttempts = 0 ∧
    (extHandleAuthResult s b o).reconnectAttempts = s.reconnectAttempts ∧
    (extSetConfig s tok).reconnectAttempts = 0 := by
  have hns : ¬ s.reconnectAttempts ≥ MAX_RECONNECT_ATTEMPTS := by
    rw [hn]
    omega
  refine ⟨?_, ?_, ?_, rfl, ?_, rfl⟩
  · unfold scheduleReconnect
    rw [if_neg hns, hn]
    rfl
  · unfold scheduleReconnect
    rw [if_neg hns, hn]
  · intro s' hs'
    unfold scheduleReconnect
    rw [if_pos hs']
  · unfold extHandleAuthResult
    cases b with
    | true => rw [if_pos rfl]
    | false => rw [if_neg (by simp)]

/-- Witness for C1 (amended) at a concrete connected state and the
disallowed URL `https://evil.example/` against allowlist `["localhost"]`. -/
theorem navigate_allowlist_enforced_by_peer_witness :
    (sendCommand ⟨true, true, true, [], "tok", ["localhost"]⟩ "navigate"
        [("url", "https://evil.example/")] "id-9").sent =
      [.commandFrame "id-9" "navigate" [("url", "https://evil.example/")]] ∧
    (sendCommand ⟨true, true, true, [], "tok", ["localhost"]⟩ "navigate"
        [("url", "https://evil.example/")] "id-9").result = .dispatched "id-9" ∧
    (sendCommand ⟨true, true, true, [], "tok", ["localhost"]⟩ "navigate"
        [("url", "https://evil.example/")] "id-9").state.pending = [] ++ ["id-9"] ∧
    executeNavigate ["localhost"] "https://evil.example/" =
      .error ("URL not in allowlist: " ++ "https://evil.example/" ++ ". Add the domain to your server config.") ∧
    (handleMessage (sendCommand ⟨true, true, true, [], "tok", ["localhost"]⟩ "navigate"
          [("url", "https://evil.example/")] "id-9").state
        (.responseMsg "id-9" false none
          (some ("URL not in allowlist: " ++ "https://evil.example/" ++ ". Add the domain to your server config.")))).outcomes =
      [("id-9", .rejected ("URL not in allowlist: " ++ "https://evil.example/" ++ ". Add the domain to your server config."))] := by
  exact navigate_allowlist_enforced_by_peer ⟨true, true, true, [], "tok", ["localhost"]⟩
    ["localhost"] "https://evil.example/" "id-9" rfl (by decide) (by decide)

/-- Witness for C2 at concrete pending tables. -/
theorem pending_terminal_events_witness :
    (handleMessage ⟨true, true, true, ["a", "b"], "tok", []⟩
        (.responseMsg "a" true none none)).state.pending.contains "a" = false ∧
    (handleMessage ⟨true, true, true, ["a", "b"], "tok", []⟩
        (.responseMsg "a" true none none)).outcomes = [("a", .resolved none)] ∧
    (handleMessage ⟨true, true, true, ["a", "b"], "tok", []⟩
        (.responseMsg "a" true none none)).sent = [] ∧
    handleMessage ⟨true, true, true, ["b"], "tok", []⟩ (.responseMsg "a" true none none) =
      ⟨⟨true, true, true, ["b"], "tok", []⟩, [], [], []⟩ ∧
    (timeoutFire ⟨true, true, true, ["a"], "tok", []⟩ "a" "url" 100).1.pending.contains "a" = false ∧
    (handleClose ⟨true, true, true, ["a"], "tok", []⟩ true).1.pending = [] ∧
    (bridgeStop ⟨true, true, true, ["a"], "tok", []⟩).1.pending = [] := by
  have h1 := pending_terminal_events ⟨true, true, true, ["a", "b"], "tok", []⟩
    "a" true none none "url" 100
  have h2 := pending_terminal_events ⟨true, true, true, ["b"], "tok", []⟩
    "a" true none none "url" 100
  have h3 := pending_terminal_events ⟨true, true, true, ["a"], "tok", []⟩
    "a" true none none "url" 100
  obtain ⟨hresp, -, -, -, -⟩ := h1
  obtain ⟨ha, hb, hc⟩ := hresp (by decide) (by decide)
  exact ⟨ha, hb, hc, h2.2.1 (by decide), h3.2.2.1, h3.2.2.2.1, h3.2.2.2.2⟩

/-- Witness for C3 with the generated token `"secret"`, a wrong token and
the matching token. -/
theorem auth_token_check_witness :
    handleMessage ⟨true, true, false, [], "secret", []⟩ (.authMsg (some "wrong") (some "ext1")) =
      ⟨⟨true, true, false, [], "secret", []⟩,
       [.authResult false (some "Invalid auth token") none],
       [⟨"auth_failed", [("extensionId", sanitizeValue "ext1")]⟩], []⟩ ∧
    (sendCommand (handleMessage ⟨true, true, false, [], "secret", []⟩
        (.authMsg (some "wrong") (some "ext1"))).state "url" [] "n1").result =
      .notConnected "Extension not connected. Make sure the Chrome extension is running and authenticated." ∧
    (handleMessage ⟨true, true, false, [], "secret", []⟩
        (.authMsg (some "secret") (some "ext1"))).state.isAuthenticated = true ∧
    (handleMessage ⟨true, true, false, [], "secret", []⟩
        (.authMsg (some "secret") (some "ext1"))).sent =
      [.authResult true none (some [])] := by
  have h1 := auth_token_check ⟨true, true, false, [], "secret", []⟩ "wrong" "ext1" (by decide)
  have h2 := auth_token_check ⟨true, true, false, [], "secret", []⟩ "secret" "ext1" (by decide)
  obtain ⟨hm, hr⟩ := h1.2 (by decide)
  obtain ⟨hx, hy⟩ := h2.1.mpr rfl
  exact ⟨hm, hr rfl, hx, hy⟩

/-- Witness for C4 (amended): a pre-auth `click` command frame is
ignored. -/
theorem preauth_other_frames_ignored_witness :
    handleMessage ⟨true, true, false, [], "tok", []⟩ (.commandMsg "k2" "click") =
      ⟨⟨true, true, false, [], "tok", []⟩, [], [], []⟩ := by
  exact preauth_other_frames_ignored ⟨true, true, false, [], "tok", []⟩
    (.commandMsg "k2" "click") rfl (by decide)

/-- Witness for C5 (amended) with an open authenticated peer attached. -/
theorem second_connection_refused_witness :
    handleConnection ⟨true, true, true, ["p"], "tok", ["o"]⟩ =
      (⟨true, true, true, ["p"], "tok", ["o"]⟩,
       .refused 4001 "Another client is already connected") ∧
    (handleConnection ⟨true, true, true, ["p"], "tok", ["o"]⟩).1.isAuthenticated = true ∧
    authenticatedPeers ⟨false, false, false, [], "t", []⟩ ≤ 1 := by
  have h := second_connection_refused ⟨true, true, true, ["p"], "tok", ["o"]⟩ rfl
  exact ⟨h.1, h.2.1, h.2.2 ⟨false, false, false, [], "t", []⟩⟩

/-- Witness for C6 on concrete 1×1 images. -/
theorem compare_self_and_match_relations_witness :
    (compareScreenshots ⟨1, 1, [⟨0, 0, 0, 255⟩]⟩ ⟨1, 1, [⟨0, 0, 0, 255⟩]⟩ (1/2)).isMatch = true ∧
    ((compareScreenshots ⟨1, 1, [⟨5, 5, 5, 255⟩]⟩ ⟨1, 1, [⟨9, 9, 9, 255⟩]⟩ (1/10)).isMatch = true ↔
      (compareScreenshots ⟨1, 1, [⟨5, 5, 5, 255⟩]⟩ ⟨1, 1, [⟨9, 9, 9, 255⟩]⟩ (1/10)).diffPixels = 0) ∧
    (compareScreenshots ⟨1, 1, [⟨5, 5, 5, 255⟩]⟩ ⟨1, 1, [⟨9, 9, 9, 255⟩]⟩ (1/10)).diffPercentage =
      100 * ((compareScreenshots ⟨1, 1, [⟨5, 5, 5, 255⟩]⟩ ⟨1, 1, [⟨9, 9, 9, 255⟩]⟩ (1/10)).diffPixels : ℚ) /
        ((compareScreenshots ⟨1, 1, [⟨5, 5, 5, 255⟩]⟩ ⟨1, 1, [⟨9, 9, 9, 255⟩]⟩ (1/10)).totalPixels : ℚ) := by
  exact compare_self_and_match_relations ⟨1, 1, [⟨0, 0, 0, 255⟩]⟩ (1/2)
    one_half_pos.le one_half_lt_one.le
    ⟨1, 1, [⟨5, 5, 5, 255⟩]⟩ ⟨1, 1, [⟨9, 9, 9, 255⟩]⟩ (1/10) rfl rfl

/-- Witness for C7 (amended) on a 2×1 screenshot against a 1×1 baseline. -/
theorem visual_compare_dimension_mismatch_witness :
    visualCompareTool ⟨2, 1, [⟨0, 0, 0, 255⟩, ⟨0, 0, 0, 255⟩]⟩
        (some ⟨1, 1, [⟨0, 0, 0, 255⟩]⟩) (1/10) =
      ⟨false, false, some ⟨false, -1, 1 * 1, 100, false⟩, false, some false⟩ := by
  exact visual_compare_dimension_mismatch ⟨2, 1, [⟨0, 0, 0, 255⟩, ⟨0, 0, 0, 255⟩]⟩
    ⟨1, 1, [⟨0, 0, 0, 255⟩]⟩ (1/10) (by decide)

/-- Witness for C9 with the traversal name `"../x"`. -/
theorem bad_baseline_names_rejected_witness :
    (storeSave "base" "../x" []).result =
      .error ("Invalid baseline name: \"" ++ "../x" ++ "\". Must not contain path separators.") ∧
    (storeSave "base" "../x" []).fsOps = [] ∧
    (storeSaveDiff "base" "../x" []).result =
      .error ("Invalid baseline name: \"" ++ "../x" ++ "\". Must not contain path separators.") ∧
    (storeSaveDiff "base" "../x" []).fsOps = [] ∧
    (storeLoad "base" "../x" none).result =
      .error ("Invalid baseline name: \"" ++ "../x" ++ "\". Must not contain path separators.") ∧
    (storeLoad "base" "../x" none).fsOps = [] ∧
    (storeExists "base" "../x" false).result =
      .error ("Invalid baseline name: \"" ++ "../x" ++ "\". Must not contain path separators.") ∧
    (storeExists "base" "../x" false).fsOps = [] := by
  exact bad_baseline_names_rejected "base" "../x" [] none false (by decide)

/-- Witness for C10 (amended) with the counter at 3. -/
theorem reconnect_backoff_witness :
    (scheduleReconnect ⟨3, false, [], some "t"⟩).2 = some (min (1000 * 2 ^ 3) 30000) ∧
    (scheduleReconnect ⟨3, false, [], some "t"⟩).1.reconnectAttempts = 3 + 1 ∧
    scheduleReconnect ⟨50, false, [], none⟩ = (⟨50, false, [], none⟩, none) ∧
    (extOnOpen ⟨3, false, [], some "t"⟩ "e").1.reconnectAttempts = 0 ∧
    (extHandleAuthResult ⟨3, false, [], some "t"⟩ true none).reconnectAttempts = 3 ∧
    (extSetConfig ⟨3, false, [], some "t"⟩ "t2").reconnectAttempts = 0 := by
  have h := reconnect_backoff ⟨3, false, [], some "t"⟩ 3 rfl (by decide) true none "e" "t2"
  exact ⟨h.1, h.2.1, h.2.2.1 ⟨50, false, [], none⟩ (by decide), h.2.2.2.1, h.2.2.2.2.1, h.2.2.2.2.2⟩
